import Mathlib

/-!
Shallow embedding of the payment core of the MRTC eCampus backend
(`src/services/paymentService.js`, `src/services/paymentProcessor.js`,
`src/routes/payments.js`, which also contains a second PayChangu webhook
handler mounted at `/paychangu`).

JavaScript numbers are modelled as `JSNum`: NaN, the two infinities, and
finite values represented by rationals.  All concrete monetary values used in
the claims are exactly representable, so rational arithmetic agrees with the
source's floating-point arithmetic on them.  Firestore is modelled as a
`Store` of typed lists; document updates by id map over the list (Firestore
document ids are unique per collection), queries with `limit(1)` are
`List.find?`, and `FieldValue.arrayUnion` appends an element only if it is
not already present.  Nondeterministic inputs of the source (generated ids,
`new Date()` timestamps, `serverTimestamp`) are passed as explicit
parameters.  A store-level failure (a rejected Firestore promise, caught by
the service's `try/catch`) is modelled by the `err` field of `Store`.
Log output, e-mail sending, the `users` collection update and the free-text
`message` strings of the validators are not modelled; they do not affect any
claim.
-/

namespace MrtcECampus

/-- Model of a JavaScript number: NaN, ±Infinity, or a finite value. -/
inductive JSNum where
  | nan
  | posInf
  | negInf
  | fin (q : ℚ)
deriving DecidableEq, Repr

namespace JSNum

/-- JavaScript `isNaN`. -/
def isNaN : JSNum → Bool
  | nan => true
  | _ => false

/-- JavaScript subtraction `a - b` (IEEE-754 special-value rules). -/
def sub : JSNum → JSNum → JSNum
  | nan, _ => nan
  | _, nan => nan
  | posInf, posInf => nan
  | posInf, _ => posInf
  | negInf, negInf => nan
  | negInf, _ => negInf
  | fin _, posInf => negInf
  | fin _, negInf => posInf
  | fin a, fin b => fin (a - b)

/-- JavaScript `a < b`: any comparison with NaN is false. -/
def lt : JSNum → JSNum → Bool
  | nan, _ => false
  | _, nan => false
  | _, negInf => false
  | negInf, _ => true
  | posInf, _ => false
  | fin _, posInf => true
  | fin a, fin b => decide (a < b)

/-- JavaScript `a <= b`: any comparison with NaN is false. -/
def le : JSNum → JSNum → Bool
  | nan, _ => false
  | _, nan => false
  | negInf, _ => true
  | _, posInf => true
  | posInf, _ => false
  | fin _, negInf => false
  | fin a, fin b => decide (a ≤ b)

/-- JavaScript `a > b`. -/
def gt (a b : JSNum) : Bool := lt b a

/-- JavaScript `Math.abs`. -/
def abs : JSNum → JSNum
  | nan => nan
  | posInf => posInf
  | negInf => posInf
  | fin q => fin |q|

end JSNum

/-- Default of `parseFloat(process.env.MIN_AMOUNT_TOLERANCE) || 0.01`. -/
def MIN_AMOUNT_TOLERANCE : ℚ := 0.01

/-- Default of `parseFloat(process.env.PLATFORM_FEE_RATE) || 0.10`. -/
def PLATFORM_FEE_RATE : ℚ := 0.10

/-- Result object of `PaymentService.validatePaymentAmount` (the free-text
`message` string of the source is not modelled). -/
structure ValidationResult where
  valid : Bool
  type : String
  requiresConfirmation : Bool
  overpayment : Option JSNum
deriving DecidableEq, Repr

/-- `PaymentService.validatePaymentAmount(requiredAmount, paidAmount)` from
`src/services/paymentService.js` lines 12-51. -/
def PaymentService.validatePaymentAmount (requiredAmount paidAmount : JSNum) :
    ValidationResult :=
  if paidAmount.isNaN || paidAmount.le (.fin 0) then
    { valid := false, type := "invalid_amount",
      requiresConfirmation := false, overpayment := none }
  else
    let shortfall := requiredAmount.sub paidAmount
    if shortfall.gt (.fin MIN_AMOUNT_TOLERANCE) then
      { valid := false, type := "underpayment",
        requiresConfirmation := false, overpayment := none }
    else
      let overpayment := paidAmount.sub requiredAmount
      if overpayment.gt (.fin 100) then
        { valid := false, type := "overpayment_warning",
          requiresConfirmation := true, overpayment := none }
      else
        { valid := true, type := "valid", requiresConfirmation := false,
          overpayment := some (if overpayment.gt (.fin 0) then overpayment else .fin 0) }

/-- Result object of `PaymentProcessor.validateAmount`. -/
structure ProcessorValidation where
  valid : Bool
  type : String
  shortfall : Option JSNum
  overpayment : Option JSNum
  requiresConfirmation : Bool
deriving DecidableEq, Repr

/-- `PaymentProcessor.validateAmount(paidAmount, requiredAmount)` from
`src/services/paymentProcessor.js` lines 50-79. -/
def PaymentProcessor.validateAmount (paidAmount requiredAmount : JSNum) :
    ProcessorValidation :=
  let tolerance : JSNum := .fin 0.01
  if ((paidAmount.sub requiredAmount).abs.gt tolerance) && (paidAmount.lt requiredAmount) then
    { valid := false, type := "underpayment",
      shortfall := some (requiredAmount.sub paidAmount),
      overpayment := none, requiresConfirmation := false }
  else
    let overpayment := paidAmount.sub requiredAmount
    if overpayment.gt (.fin 100) then
      { valid := true, type := "overpayment_warning", shortfall := none,
        overpayment := some overpayment, requiresConfirmation := true }
    else
      { valid := true, type := "valid", shortfall := none,
        overpayment := some (if overpayment.gt (.fin 0) then overpayment else .fin 0),
        requiresConfirmation := false }

/-- Fees object returned by `PaymentService.calculateFees`. -/
structure Fees where
  platform : ℚ
  processing : ℚ
  total : ℚ
deriving DecidableEq, Repr

/-- `PaymentService.calculateFees(amount, method, coursePrice)` from
`src/services/paymentService.js` lines 159-186. -/
def PaymentService.calculateFees (amount : ℚ) (method : String) (coursePrice : ℚ) : Fees :=
  let platformFee := coursePrice * PLATFORM_FEE_RATE
  let processingFee : ℚ :=
    if method = "paychangu" then amount * 0.03
    else if method = "paypal" then amount * 0.029 + 0.30
    else if method = "bank_transfer" then 0
    else 0
  { platform := platformFee, processing := processingFee,
    total := platformFee + processingFee }

/-- Breakdown returned by `PaymentProcessor.calculateTotal` (the nested
`breakdown` object repeats the same fields and is not modelled). -/
structure TotalBreakdown where
  amount : ℚ
  platformFee : ℚ
  paymentFee : ℚ
  total : ℚ
deriving DecidableEq, Repr

/-- `PaymentProcessor.calculateTotal(amount, method)` from
`src/services/paymentProcessor.js` lines 9-47; `this.platformFeeRate = 0.10`. -/
def PaymentProcessor.calculateTotal (amount : ℚ) (method : String) : TotalBreakdown :=
  let feeRate : ℚ :=
    if method = "paychangu" then 0.03
    else if method = "paypal" then 0.029
    else if method = "bank_transfer" then 0
    else 0.03
  let fixedFee : ℚ := if method = "paypal" then 0.30 else 0
  let platformFee := amount * (0.10 : ℚ)
  let paymentFee := amount * feeRate + fixedFee
  { amount := amount, platformFee := platformFee, paymentFee := paymentFee,
    total := amount + platformFee + paymentFee }

/-- One entry of a payment's append-only `history` array. -/
structure HistoryEntry where
  status : String
  timestamp : String
  message : String
deriving DecidableEq, Repr

/-- The `amount` sub-object of a payment document created by
`PaymentService.createPaymentOrder`. -/
structure Amount where
  requested : ℚ
  net : ℚ
  currency : String
deriving DecidableEq, Repr

/-- A course document (only the fields the payment core reads or writes). -/
structure Course where
  title : String
  priceUSD : ℚ
  totalEnrollments : Nat
deriving DecidableEq, Repr

/-- A typed Firestore field value: the `createdAt` field is written as a
Timestamp (`FieldValue.serverTimestamp`, time measured in hours here), while
`checkDuplicatePayment` compares it against an ISO string. -/
inductive FieldVal where
  | timestamp (t : ℚ)
  | str (s : String)
deriving DecidableEq, Repr

/-- A Firestore `>=` range filter: it matches only values of the same type
as the comparison value (and under Firestore's cross-type ordering a
timestamp is in any case strictly smaller than every string), so a
Timestamp-typed field never satisfies `>= <ISO string>`. -/
def FieldVal.ge : FieldVal → FieldVal → Bool
  | timestamp a, timestamp b => decide (b ≤ a)
  | str a, str b => decide (b ≤ a)
  | _, _ => false

/-- A payment document in the `payments` collection, as written by
`PaymentService.createPaymentOrder`.  `createdAt` holds the typed value the
source writes (`FieldValue.serverTimestamp()`, a Timestamp). -/
structure Payment where
  id : String
  orderId : String
  userId : String
  courseId : String
  courseTitle : String
  coursePrice : ℚ
  method : String
  status : String
  amount : Amount
  fees : Fees
  history : List HistoryEntry
  createdAt : FieldVal
deriving DecidableEq, Repr

/-- An enrollment document.  `paymentId` holds the payment id (routes
handler) or the order id (second webhook handler). -/
structure Enrollment where
  id : String
  userId : String
  courseId : String
  paymentId : String
  status : String
deriving DecidableEq, Repr

/-- An order document in the `payment_orders` collection used by the second
PayChangu webhook handler. -/
structure PaymentOrder2 where
  orderId : String
  userId : String
  courseId : String
  totalAmount : ℚ
  amountMWK : ℚ
  currency : String
  status : String
deriving DecidableEq, Repr

/-- A payment record written by the second webhook handler's
`handlePaymentSuccess` (document id `PCHG-<transactionId>`). -/
structure PchgPayment where
  paymentId : String
  orderId : String
  userId : String
  courseId : String
  amount : ℚ
  status : String
deriving DecidableEq, Repr

/-- The Firestore state visible to the payment core.  `err` models an
environment in which reads/writes fail (a rejected promise caught by the
service's `try/catch`). -/
structure Store where
  courses : List (String × Course)
  payments : List Payment
  enrollments : List Enrollment
  paymentOrders : List PaymentOrder2
  pchgPayments : List PchgPayment
  err : Option String
deriving DecidableEq, Repr

/-- `db.collection('courses').doc(courseId).get()`. -/
def findCourse (db : Store) (courseId : String) : Option Course :=
  (db.courses.find? (fun kv => kv.1 = courseId)).map Prod.snd

/-- `db.collection('payments').doc(paymentId).get()`. -/
def findPayment (db : Store) (paymentId : String) : Option Payment :=
  db.payments.find? (fun p => p.id = paymentId)

/-- `db.collection('payments').where('orderId','==',orderId).limit(1)`. -/
def findPaymentByOrderId (db : Store) (orderId : String) : Option Payment :=
  db.payments.find? (fun p => p.orderId = orderId)

/-- `paymentRef.update(...)`: replace the document with id `p.id`
(Firestore document ids are unique per collection). -/
def setPayment (db : Store) (p : Payment) : Store :=
  { db with payments := db.payments.map (fun q => if q.id = p.id then p else q) }

/-- `admin.firestore.FieldValue.arrayUnion(e)`: append `e` only if it is not
already an element. -/
def arrayUnion (l : List HistoryEntry) (e : HistoryEntry) : List HistoryEntry :=
  if e ∈ l then l else l ++ [e]

/-- `db.collection('enrollments').where('userId','==',u).where('courseId','==',c).limit(1)`. -/
def findEnrollment (l : List Enrollment) (userId courseId : String) : Option Enrollment :=
  l.find? (fun e => e.userId = userId && e.courseId = courseId)

/-- Number of enrollment documents for a `(userId, courseId)` pair. -/
def countEnrollments (l : List Enrollment) (userId courseId : String) : Nat :=
  (l.filter (fun e => e.userId = userId && e.courseId = courseId)).length

/-- Result of `PaymentService.createPaymentOrder`. -/
structure CreateResult where
  success : Bool
  paymentId : Option String
  orderId : Option String
  data : Option Payment
  error : Option String
deriving DecidableEq, Repr

/-- `PaymentService.createPaymentOrder(userId, courseId, method, amount)` from
`src/services/paymentService.js` lines 54-118.  The generated `orderId` and
`paymentId` and the timestamps are passed as parameters.  The thrown
`Error('Course not found')` is caught by the method's own `catch` and turned
into a failure result. -/
def PaymentService.createPaymentOrder (db : Store) (userId courseId method : String)
    (amount : ℚ) (orderId paymentId : String) (now : String) (nowT : ℚ) :
    CreateResult × Store :=
  match db.err with
  | some m =>
      ({ success := false, paymentId := none, orderId := none, data := none,
         error := some m }, db)
  | none =>
    match findCourse db courseId with
    | none =>
        ({ success := false, paymentId := none, orderId := none, data := none,
           error := some "Course not found" }, db)
    | some course =>
        let fees := PaymentService.calculateFees amount method course.priceUSD
        let paymentData : Payment :=
          { id := paymentId, orderId := orderId, userId := userId,
            courseId := courseId, courseTitle := course.title,
            coursePrice := course.priceUSD, method := method,
            status := "pending",
            amount := { requested := amount, net := amount - fees.total,
                        currency := "USD" },
            fees := fees,
            history := [{ status := "created", timestamp := now,
                          message := "Payment order created" }],
            createdAt := FieldVal.timestamp nowT }
        ({ success := true, paymentId := some paymentId, orderId := some orderId,
           data := some paymentData, error := none },
         { db with payments := db.payments ++ [paymentData] })

/-- Result of `PaymentService.verifyPayment`. -/
structure VerifyResult where
  success : Bool
  paymentId : Option String
  status : Option String
  error : Option String
deriving DecidableEq, Repr

/-- The history entry appended by `PaymentService.verifyPayment` for a call
at timestamp `now`. -/
def verifiedEntry (now : String) : HistoryEntry :=
  { status := "completed", timestamp := now,
    message := "Payment verified and completed" }

/-- `PaymentService.verifyPayment(paymentId)` from
`src/services/paymentService.js` lines 121-156: unconditionally sets the
status to `completed` and arrayUnions a fresh-timestamped history entry. -/
def PaymentService.verifyPayment (db : Store) (paymentId : String) (now : String) :
    VerifyResult × Store :=
  match db.err with
  | some m =>
      ({ success := false, paymentId := none, status := none, error := some m }, db)
  | none =>
    match findPayment db paymentId with
    | none =>
        ({ success := false, paymentId := none, status := none,
           error := some "Payment not found" }, db)
    | some p =>
        let p2 := { p with
          status := "completed"
          history := arrayUnion p.history (verifiedEntry now) }
        ({ success := true, paymentId := some paymentId,
           status := some "completed", error := none },
         setPayment db p2)

/-- Result of the status-updating service methods. -/
structure SimpleResult where
  success : Bool
  error : Option String
deriving DecidableEq, Repr

/-- `PaymentService.updatePaymentStatus(paymentId, status, message)` from
`src/services/paymentService.js` lines 224-247: unconditionally overwrites
the status and arrayUnions a history entry.  An `update` on a missing
document rejects and is caught. -/
def PaymentService.updatePaymentStatus (db : Store)
    (paymentId status message now : String) : SimpleResult × Store :=
  match db.err with
  | some m => ({ success := false, error := some m }, db)
  | none =>
    match findPayment db paymentId with
    | none => ({ success := false, error := some "No document to update" }, db)
    | some p =>
        let p2 := { p with
          status := status
          history := arrayUnion p.history
            { status := status, timestamp := now, message := message } }
        ({ success := true, error := none }, setPayment db p2)

/-- `PaymentService.refundPayment(paymentId, reason)` from
`src/services/paymentService.js` lines 313-340 (the `refund` sub-object is
not modelled). -/
def PaymentService.refundPayment (db : Store) (paymentId reason now : String) :
    SimpleResult × Store :=
  match db.err with
  | some m => ({ success := false, error := some m }, db)
  | none =>
    match findPayment db paymentId with
    | none => ({ success := false, error := some "No document to update" }, db)
    | some p =>
        let p2 := { p with
          status := "refunded"
          history := arrayUnion p.history
            { status := "refunded", timestamp := now,
              message := "Payment refunded: " ++ reason } }
        ({ success := true, error := none }, setPayment db p2)

/-- Result of `PaymentService.getPaymentDetails`. -/
structure DetailsResult where
  success : Bool
  data : Option Payment
  error : Option String
deriving DecidableEq, Repr

/-- `PaymentService.getPaymentDetails(paymentId)` from
`src/services/paymentService.js` lines 201-221. -/
def PaymentService.getPaymentDetails (db : Store) (paymentId : String) : DetailsResult :=
  match db.err with
  | some m => { success := false, data := none, error := some m }
  | none =>
    match findPayment db paymentId with
    | none => { success := false, data := none, error := some "Payment not found" }
    | some p => { success := true, data := some p, error := none }

/-- Result of `PaymentService.checkDuplicatePayment`. -/
structure DuplicateResult where
  success : Bool
  hasDuplicates : Bool
  count : Nat
  payments : List Payment
  error : Option String
deriving DecidableEq, Repr

/-- `PaymentService.checkDuplicatePayment(userId, courseId, timeWindowHours)`
from `src/services/paymentService.js` lines 250-281.  `cutoffIso` is the
computed `cutoffTime.toISOString()` — a string.  The source's query compares
the Timestamp-typed `createdAt` field against this string with `>=`, a
cross-type range filter that no Timestamp value satisfies (`FieldVal.ge`),
so documents written by the create paths are never matched. -/
def PaymentService.checkDuplicatePayment (db : Store) (userId courseId : String)
    (timeWindowHours : ℚ) (cutoffIso : String) : DuplicateResult :=
  match db.err with
  | some m =>
      { success := false, hasDuplicates := false, count := 0, payments := [],
        error := some m }
  | none =>
    let duplicates := db.payments.filter (fun p =>
      p.userId = userId && p.courseId = courseId &&
      FieldVal.ge p.createdAt (FieldVal.str cutoffIso) &&
      (p.status = "pending" || p.status = "processing" || p.status = "completed"))
    { success := true, hasDuplicates := decide (0 < duplicates.length),
      count := duplicates.length, payments := duplicates, error := none }

/-- Result of the routes-file helper `enrollUserInCourse`. -/
structure EnrollResult where
  success : Bool
  enrollmentId : Option String
  error : Option String
deriving DecidableEq, Repr

/-- `enrollUserInCourse(userId, courseId, paymentId)` from
`src/routes/payments.js` lines 640-700: checks for an existing enrollment
for `(userId, courseId)` before creating one; increments the course's
enrollment count.  The `users` document update and the confirmation e-mail
are not modelled. -/
def enrollUserInCourse (db : Store) (userId courseId paymentId newEnrollmentId : String) :
    EnrollResult × Store :=
  match findEnrollment db.enrollments userId courseId with
  | some _ =>
      ({ success := false, enrollmentId := none, error := some "Already enrolled" }, db)
  | none =>
      let e : Enrollment :=
        { id := newEnrollmentId, userId := userId, courseId := courseId,
          paymentId := paymentId, status := "active" }
      let db2 : Store :=
        { db with
          enrollments := db.enrollments ++ [e]
          courses := db.courses.map (fun kv =>
            if kv.1 = courseId then
              (kv.1, { kv.2 with totalEnrollments := kv.2.totalEnrollments + 1 })
            else kv) }
      ({ success := true, enrollmentId := some newEnrollmentId, error := none }, db2)

/-- `verifyPaychanguWebhook(payload, signature)` from `src/routes/payments.js`
lines 942-952: returns `true` both when no webhook secret is configured and
when one is (the HMAC check is an unimplemented TODO). -/
def verifyPaychanguWebhook (webhookSecret : Option String) : Bool :=
  match webhookSecret with
  | none => true
  | some _ => true

/-- The provider-status-to-order-status mapping of the `/paychangu-webhook`
handler (`src/routes/payments.js` lines 554-567). -/
def mapPaychanguStatus (status : String) : String :=
  if status = "SUCCESS" then "completed"
  else if status = "FAILED" then "failed"
  else if status = "PENDING" then "pending"
  else "processing"

/-- Body of a PayChangu webhook delivery to `/paychangu-webhook`. -/
structure WebhookPayload where
  transactionId : String
  status : String
  orderId : String
  amount : ℚ
deriving DecidableEq, Repr

/-- The `/paychangu-webhook` route handler from `src/routes/payments.js`
lines 526-588.  Returns the HTTP status code and the new store.  On an
unknown order reference it responds 404; on a `SUCCESS` event it overwrites
the payment's status (without appending a history entry) and calls
`enrollUserInCourse`. -/
def paychanguWebhookRoute (db : Store) (payload : WebhookPayload)
    (webhookSecret : Option String) (newEnrollmentId : String) : Nat × Store :=
  if !verifyPaychanguWebhook webhookSecret then (401, db)
  else
    match findPaymentByOrderId db payload.orderId with
    | none => (404, db)
    | some p =>
        let newStatus := mapPaychanguStatus payload.status
        let db2 := setPayment db { p with status := newStatus }
        if payload.status = "SUCCESS" then
          let r := enrollUserInCourse db2 p.userId p.courseId p.id newEnrollmentId
          (200, r.2)
        else (200, db2)

/-- Repeated delivery of the same webhook event to `/paychangu-webhook`;
`ids n` is the enrollment document id generated on the `n`-th delivery. -/
def deliverN (payload : WebhookPayload) (webhookSecret : Option String)
    (ids : Nat → String) : Nat → Store → Store
  | 0, db => db
  | n + 1, db =>
      deliverN payload webhookSecret ids n
        (paychanguWebhookRoute db payload webhookSecret (ids n)).2

/-- Number of `Completed` entries in a payment's history. -/
def countCompleted (h : List HistoryEntry) : Nat :=
  (h.filter (fun e => e.status = "completed")).length

/-- `db.collection('payment_orders').where('orderId','==',ref).limit(1)`
used by the second webhook handler. -/
def findOrder2 (l : List PaymentOrder2) (ref : String) : Option PaymentOrder2 :=
  l.find? (fun o => o.orderId = ref)

/-- Update of the single document returned by a `limit(1)` query on
`payment_orders`: the first order whose `orderId` matches is replaced. -/
def updateFirstOrder2 (l : List PaymentOrder2) (ref : String)
    (f : PaymentOrder2 → PaymentOrder2) : List PaymentOrder2 :=
  match l with
  | [] => []
  | o :: rest =>
      if o.orderId = ref then f o :: rest
      else o :: updateFirstOrder2 rest ref f

/-- The `data` object of an event delivered to the second PayChangu webhook
handler (`/paychangu`). -/
structure Event2Data where
  reference : String
  transaction_id : String
  amount : ℚ
  currency : String
  phone : String
  network : String
  reason : String
deriving DecidableEq, Repr

/-- An event delivered to the second PayChangu webhook handler. -/
structure Event2 where
  type : String
  data : Event2Data
deriving DecidableEq, Repr

/-- `enrollUserInCourse(userId, courseId, orderId)` of the second webhook
handler (`src/routes/payments.js` lines 1157-1191): writes the enrollment
under the deterministic document id `userId_courseId` with `set` (an
existing document is overwritten, not duplicated) and increments the
course's enrollment count. -/
def enrollUserInCourse2 (db : Store) (userId courseId orderId : String) : Store :=
  let enrollmentId := userId ++ "_" ++ courseId
  let e : Enrollment :=
    { id := enrollmentId, userId := userId, courseId := courseId,
      paymentId := orderId, status := "active" }
  let enrollments2 :=
    if db.enrollments.any (fun x => x.id = enrollmentId) then
      db.enrollments.map (fun x => if x.id = enrollmentId then e else x)
    else db.enrollments ++ [e]
  { db with
    enrollments := enrollments2
    courses := db.courses.map (fun kv =>
      if kv.1 = courseId then
        (kv.1, { kv.2 with totalEnrollments := kv.2.totalEnrollments + 1 })
      else kv) }

/-- `handlePaymentSuccess(paymentData)` from `src/routes/payments.js`
lines 1030-1094: if no order matches the reference it logs and returns
(leaving the store unchanged); otherwise it completes the order, writes a
`PCHG-<transactionId>` payment record and enrolls the user. -/
def handlePaymentSuccess (db : Store) (d : Event2Data) : Store :=
  match findOrder2 db.paymentOrders d.reference with
  | none => db
  | some o =>
      let orders2 := updateFirstOrder2 db.paymentOrders d.reference
        (fun x => { x with status := "completed" })
      let db1 : Store := { db with paymentOrders := orders2 }
      let rec_ : PchgPayment :=
        { paymentId := "PCHG-" ++ d.transaction_id, orderId := o.orderId,
          userId := o.userId, courseId := o.courseId,
          amount := o.totalAmount, status := "completed" }
      let db2 : Store := { db1 with pchgPayments := db1.pchgPayments ++ [rec_] }
      enrollUserInCourse2 db2 o.userId o.courseId o.orderId

/-- `handlePaymentFailed(paymentData)` from `src/routes/payments.js`
lines 1097-1125. -/
def handlePaymentFailed (db : Store) (d : Event2Data) : Store :=
  match findOrder2 db.paymentOrders d.reference with
  | none => db
  | some _ =>
      let orders2 := updateFirstOrder2 db.paymentOrders d.reference
        (fun x => { x with status := "failed" })
      { db with paymentOrders := orders2 }

/-- `handlePaymentPending(paymentData)` from `src/routes/payments.js`
lines 1128-1154: unconditionally sets a found order's status back to
`pending`, whatever its current status is. -/
def handlePaymentPending (db : Store) (d : Event2Data) : Store :=
  match findOrder2 db.paymentOrders d.reference with
  | none => db
  | some _ =>
      let orders2 := updateFirstOrder2 db.paymentOrders d.reference
        (fun x => { x with status := "pending" })
      { db with paymentOrders := orders2 }

/-- The second PayChangu webhook route (`router.post('/paychangu')`,
`src/routes/payments.js` lines 992-1027).  `sigOk` is the result of the
HMAC comparison performed by `verifyPaychanguSignature`.  Any recognised or
unrecognised event type — including one whose order reference matches
nothing — is acknowledged with 200. -/
def paychanguRoute (db : Store) (event : Event2) (sigOk : Bool) : Nat × Store :=
  if !sigOk then (401, db)
  else
    let db2 :=
      if event.type = "payment.success" then handlePaymentSuccess db event.data
      else if event.type = "payment.failed" then handlePaymentFailed db event.data
      else if event.type = "payment.pending" then handlePaymentPending db event.data
      else db
    (200, db2)

/-- Number of payment documents for a `(userId, courseId)` pair. -/
def countPaymentsFor (db : Store) (userId courseId : String) : Nat :=
  (db.payments.filter (fun p => p.userId = userId && p.courseId = courseId)).length

/-- A sample course document for concrete evaluations ($50 base price). -/
def sampleCourse : Course :=
  { title := "Sample Course", priceUSD := 50, totalEnrollments := 0 }

/-- A store with no documents and no store failure. -/
def emptyStore : Store :=
  { courses := [], payments := [], enrollments := [], paymentOrders := [],
    pchgPayments := [], err := none }

/-- A store holding only the sample course under id `c1`. -/
def storeWithCourse : Store :=
  { emptyStore with courses := [("c1", sampleCourse)] }

/-- A sample payment document with the given status. -/
def samplePayment (status : String) : Payment :=
  { id := "P1", orderId := "O1", userId := "u1", courseId := "c1",
    courseTitle := "Sample Course", coursePrice := 50, method := "paychangu",
    status := status,
    amount := { requested := 55, net := 48, currency := "USD" },
    fees := { platform := 5, processing := 2, total := 7 },
    history := [{ status := "created", timestamp := "t0",
                  message := "Payment order created" }],
    createdAt := FieldVal.timestamp 0 }

/-- A store holding the sample course and one sample payment. -/
def storeWithPayment (status : String) : Store :=
  { storeWithCourse with payments := [samplePayment status] }

/-- A webhook payload for the sample payment's order with the given
provider status. -/
def samplePayload (status : String) : WebhookPayload :=
  { transactionId := "TX1", status := status, orderId := "O1", amount := 55 }

/-- The result-object discipline of the payment service: either success with
no error, or failure with an error message. -/
def resultOk (success : Bool) (error : Option String) : Prop :=
  (success = true ∧ error = none) ∨ (success = false ∧ error.isSome = true)

/-- A constant enrollment-id generator for repeated webhook deliveries. -/
def constIds : Nat → String := fun _ => "E1"

/-- A `payment.success` event for the second webhook handler whose order
reference matches nothing. -/
def sampleEvent2 : Event2 :=
  { type := "payment.success",
    data := { reference := "O9", transaction_id := "T9", amount := 55,
              currency := "MWK", phone := "", network := "", reason := "" } }

/-- The payment document created by a sample `createPaymentOrder` call. -/
def createdSample : Payment :=
  ((PaymentService.createPaymentOrder storeWithCourse "u1" "c1" "paychangu" 55
      "O1" "P1" "t1" 0).1.data).getD (samplePayment "pending")

/-- The store after one sample `createPaymentOrder` call for `(u1, c1)`. -/
def dupDb1 : Store :=
  (PaymentService.createPaymentOrder storeWithCourse "u1" "c1" "paychangu" 55
    "O1" "PP1" "t1" 0).2

/-- The payment document created by the first sample create call. -/
def dupPayment : Payment :=
  ((PaymentService.createPaymentOrder storeWithCourse "u1" "c1" "paychangu" 55
      "O1" "PP1" "t1" 0).1.data).getD (samplePayment "pending")

/-- The result of a second `createPaymentOrder` call for the same
`(userId, courseId)` one hour later, within the 24-hour window. -/
def dupResult2 : CreateResult × Store :=
  PaymentService.createPaymentOrder dupDb1 "u1" "c1" "paychangu" 55 "O2" "PP2" "t2" 1

/-! ## Helper lemmas -/

lemma verifyPaychanguWebhook_true (s : Option String) : verifyPaychanguWebhook s = true := by
  cases s <;> rfl

lemma setPayment_eq_of_id (db : Store) (p q : Payment)
    (hq : q ∈ (setPayment db p).payments) (hid : q.id = p.id) : q = p := by
  simp only [setPayment, List.mem_map] at hq
  obtain ⟨q0, -, rfl⟩ := hq
  by_cases h : q0.id = p.id
  · simp [h]
  · simp only [if_neg h] at hid ⊢
    exact absurd hid h

lemma enrollUserInCourse_payments (db : Store) (u c pid eid : String) :
    ((enrollUserInCourse db u c pid eid).2).payments = db.payments := by
  cases h : findEnrollment db.enrollments u c <;> simp [enrollUserInCourse, h]

lemma countEnrollments_eq_zero_iff (l : List Enrollment) (u c : String) :
    countEnrollments l u c = 0 ↔ findEnrollment l u c = none := by
  simp [countEnrollments, findEnrollment, List.length_eq_zero,
    List.filter_eq_nil_iff, List.find?_eq_none]

lemma countEnrollments_append (l : List Enrollment) (e : Enrollment) (u c : String) :
    countEnrollments (l ++ [e]) u c =
      countEnrollments l u c + (if e.userId = u ∧ e.courseId = c then 1 else 0) := by
  by_cases h : e.userId = u ∧ e.courseId = c
  · simp [countEnrollments, List.filter_append, h]
  · simp only [countEnrollments, List.filter_append]
    rw [List.filter_cons]
    simp only [Bool.and_eq_true, decide_eq_true_eq]
    rw [if_neg h, if_neg h]
    simp

lemma countEnrollments_enroll_preserve (db : Store) (u' c' pid eid u c : String)
    (h : countEnrollments db.enrollments u c = 1) :
    countEnrollments ((enrollUserInCourse db u' c' pid eid).2).enrollments u c = 1 := by
  cases hf : findEnrollment db.enrollments u' c' with
  | some e => simp [enrollUserInCourse, hf, h]
  | none =>
    by_cases huc : u' = u ∧ c' = c
    · obtain ⟨rfl, rfl⟩ := huc
      have h0 := (countEnrollments_eq_zero_iff db.enrollments u' c').mpr hf
      omega
    · simp only [enrollUserInCourse, hf]
      rw [countEnrollments_append]
      simp only [if_neg huc]
      omega

lemma countEnrollments_enroll_first (db : Store) (u c pid eid : String)
    (h : countEnrollments db.enrollments u c = 0) :
    countEnrollments ((enrollUserInCourse db u c pid eid).2).enrollments u c = 1 := by
  have hf : findEnrollment db.enrollments u c = none :=
    (countEnrollments_eq_zero_iff db.enrollments u c).mp h
  simp only [enrollUserInCourse, hf]
  rw [countEnrollments_append]
  simp [h]

lemma webhook_count_preserve (db : Store) (payload : WebhookPayload)
    (secret : Option String) (eid u c : String)
    (h : countEnrollments db.enrollments u c = 1) :
    countEnrollments ((paychanguWebhookRoute db payload secret eid).2).enrollments u c = 1 := by
  simp only [paychanguWebhookRoute, verifyPaychanguWebhook_true, Bool.not_true,
    Bool.false_eq_true, if_false]
  cases hf : findPaymentByOrderId db payload.orderId with
  | none => simpa using h
  | some p =>
    by_cases hs : payload.status = "SUCCESS"
    · simp only [hs, if_pos rfl]
      exact countEnrollments_enroll_preserve _ _ _ _ _ _ _ h
    · simp only [if_neg hs]
      simpa using h

lemma webhook_count_first (db : Store) (payload : WebhookPayload)
    (secret : Option String) (eid : String) (p : Payment)
    (hf : findPaymentByOrderId db payload.orderId = some p)
    (hs : payload.status = "SUCCESS")
    (h0 : countEnrollments db.enrollments p.userId p.courseId = 0) :
    countEnrollments ((paychanguWebhookRoute db payload secret eid).2).enrollments
      p.userId p.courseId = 1 := by
  simp only [paychanguWebhookRoute, verifyPaychanguWebhook_true, Bool.not_true,
    Bool.false_eq_true, if_false, hf]
  simp only [hs, if_pos rfl]
  exact countEnrollments_enroll_first _ _ _ _ _ h0

lemma deliverN_count_preserve (payload : WebhookPayload) (secret : Option String)
    (ids : Nat → String) (u c : String) :
    ∀ (n : Nat) (db : Store), countEnrollments db.enrollments u c = 1 →
      countEnrollments (deliverN payload secret ids n db).enrollments u c = 1 := by
  intro n
  induction n with
  | zero => intro db h; simpa [deliverN] using h
  | succ m ih =>
    intro db h
    simp only [deliverN]
    exact ih _ (webhook_count_preserve _ _ _ _ _ _ h)

lemma findOrder2_updateFirst (l : List PaymentOrder2) (ref : String)
    (f : PaymentOrder2 → PaymentOrder2) (o : PaymentOrder2)
    (horder : ∀ x, (f x).orderId = x.orderId)
    (h : findOrder2 l ref = some o) :
    findOrder2 (updateFirstOrder2 l ref f) ref = some (f o) := by
  induction l with
  | nil => simp [findOrder2] at h
  | cons a rest ih =>
    by_cases ha : a.orderId = ref
    · simp only [findOrder2, List.find?] at h
      rw [show (decide (a.orderId = ref)) = true by simp [ha]] at h
      simp only [Option.some.injEq] at h
      subst h
      simp only [updateFirstOrder2, if_pos ha, findOrder2, List.find?]
      rw [show (decide ((f a).orderId = ref)) = true by simp [horder, ha]]
    · simp only [findOrder2, List.find?] at h
      rw [show (decide (a.orderId = ref)) = false by simp [ha]] at h
      simp only [updateFirstOrder2, if_neg ha, findOrder2, List.find?]
      rw [show (decide (a.orderId = ref)) = false by simp [ha]]
      exact ih h

lemma calculateFees_total_eq (amount : ℚ) (method : String) (coursePrice : ℚ) :
    (PaymentService.calculateFees amount method coursePrice).total =
      (PaymentService.calculateFees amount method coursePrice).platform +
        (PaymentService.calculateFees amount method coursePrice).processing := by
  simp [PaymentService.calculateFees]

/-! ## Claim theorems -/

/-- C1 (amended): delivering the same canonical Completed (`SUCCESS`) event
N ≥ 1 times to `/paychangu-webhook` leaves exactly one enrollment record for
the order's `(userId, courseId)` — `enrollUserInCourse` checks for an
existing enrollment before inserting — but the handler itself never appends
any history entry (so there is no Completed history entry from the webhook),
and every `verifyPayment` call whose fresh-timestamped entry is not already
present appends one more Completed history entry; the enrollment executor is
invoked on every delivery rather than at most once. -/
theorem c1_completed_delivery_idempotence (db : Store) (payload : WebhookPayload)
    (secret : Option String) (ids : Nat → String) (p : Payment)
    (hf : findPaymentByOrderId db payload.orderId = some p)
    (hs : payload.status = "SUCCESS")
    (h0 : countEnrollments db.enrollments p.userId p.courseId = 0) :
    (∀ n : Nat, countEnrollments
        (deliverN payload secret ids (n + 1) db).enrollments p.userId p.courseId = 1) ∧
    (∀ q ∈ (paychanguWebhookRoute db payload secret (ids 0)).2.payments,
        ∃ q0 ∈ db.payments, q.history = q0.history) ∧
    (∀ (db' : Store) (pid now : String) (p' : Payment), db'.err = none →
        findPayment db' pid = some p' →
        verifiedEntry now ∉ p'.history →
        ∀ q ∈ (PaymentService.verifyPayment db' pid now).2.payments, q.id = p'.id →
          q.history = p'.history ++ [verifiedEntry now]) := by
  refine ⟨?_, ?_, ?_⟩
  · intro n
    simp only [deliverN]
    exact deliverN_count_preserve _ _ _ _ _ n _
      (webhook_count_first db payload secret (ids n) p hf hs h0)
  · intro q hq
    simp only [paychanguWebhookRoute, verifyPaychanguWebhook_true, Bool.not_true,
      Bool.false_eq_true, if_false, hf] at hq
    by_cases hsb : payload.status = "SUCCESS"
    · rw [if_pos hsb] at hq
      rw [enrollUserInCourse_payments] at hq
      simp only [setPayment, List.mem_map] at hq
      obtain ⟨q0, hq0, rfl⟩ := hq
      by_cases hid : q0.id = p.id
      · exact ⟨p, List.mem_of_find?_eq_some hf, by simp [hid]⟩
      · exact ⟨q0, hq0, by simp [hid]⟩
    · rw [if_neg hsb] at hq
      simp only [setPayment, List.mem_map] at hq
      obtain ⟨q0, hq0, rfl⟩ := hq
      by_cases hid : q0.id = p.id
      · exact ⟨p, List.mem_of_find?_eq_some hf, by simp [hid]⟩
      · exact ⟨q0, hq0, by simp [hid]⟩
  · intro db' pid now p' herr hfind hmem q hq hid
    simp only [PaymentService.verifyPayment, herr, hfind] at hq
    have := setPayment_eq_of_id _ _ _ hq (by simpa using hid)
    subst this
    simp [arrayUnion, hmem]

/-- C1 counterexample: two `verifyPayment` deliveries of the same logical
Completed event, with the distinct call timestamps `T1` and `T2` the source
generates, leave two Completed history entries on the order, not exactly
one. -/
theorem c1_completed_delivery_counterexample :
    (Option.map (fun p => countCompleted p.history)
      (findPayment (PaymentService.verifyPayment
        (PaymentService.verifyPayment (storeWithPayment "pending") "P1" "T1").2
        "P1" "T2").2 "P1")) = some 2 ∧ (2 : Nat) ≠ 1 := ⟨rfl, by decide⟩

/-- C1 witness: two webhook deliveries of the sample `SUCCESS` event leave
exactly one enrollment record for `(u1, c1)`. -/
theorem c1_completed_delivery_witness :
    countEnrollments (deliverN (samplePayload "SUCCESS") none constIds 2
      (storeWithPayment "pending")).enrollments "u1" "c1" = 1 :=
  (c1_completed_delivery_idempotence (storeWithPayment "pending")
    (samplePayload "SUCCESS") none constIds (samplePayment "pending") rfl rfl rfl).1 1

/-- C2 (amended): when `paidAmount − requiredAmount > 100`, the processor's
validator accepts with `valid = true`, type `overpayment_warning`, the exact
overpayment and `requiresConfirmation`; the service's validator (used by the
routes) returns the same type and flag but `valid = false`, i.e. it rejects
the payment (for a positive `paidAmount`; NaN and non-positive amounts
cannot satisfy the hypothesis or are rejected as invalid). -/
theorem c2_overpayment_warning (required paid : JSNum)
    (h : (paid.sub required).gt (.fin 100) = true) :
    PaymentProcessor.validateAmount paid required =
      { valid := true, type := "overpayment_warning", shortfall := none,
        overpayment := some (paid.sub required), requiresConfirmation := true } ∧
    (paid.le (.fin 0) = false →
      PaymentService.validatePaymentAmount required paid =
        { valid := false, type := "overpayment_warning",
          requiresConfirmation := true, overpayment := none }) := by
  cases paid <;> cases required <;>
    simp_all [JSNum.sub, JSNum.gt, JSNum.lt, JSNum.le, JSNum.abs, JSNum.isNaN,
      PaymentProcessor.validateAmount, PaymentService.validatePaymentAmount,
      MIN_AMOUNT_TOLERANCE, ProcessorValidation.mk.injEq, ValidationResult.mk.injEq] <;>
    constructor <;> intros <;>
    first
      | linarith
      | rw [if_neg (by linarith), if_neg (by linarith)]

/-- C2 counterexample: for `requiredAmount = 10` and `paidAmount = 200` the
overpayment exceeds the threshold, yet `PaymentService.validatePaymentAmount`
returns `valid = false` — the payment is rejected, not accepted as the claim
states. -/
theorem c2_overpayment_counterexample :
    ((JSNum.fin 200).sub (JSNum.fin 10)).gt (JSNum.fin 100) = true ∧
    (PaymentService.validatePaymentAmount (JSNum.fin 10) (JSNum.fin 200)).valid = false := by
  constructor
  · norm_num [JSNum.sub, JSNum.gt, JSNum.lt]
  · norm_num [PaymentService.validatePaymentAmount, JSNum.sub, JSNum.gt, JSNum.lt,
      JSNum.le, JSNum.isNaN, MIN_AMOUNT_TOLERANCE]

/-- C2 witness: the amended statement at `requiredAmount = 10`,
`paidAmount = 200`. -/
theorem c2_overpayment_witness :
    PaymentProcessor.validateAmount (JSNum.fin 200) (JSNum.fin 10) =
      { valid := true, type := "overpayment_warning", shortfall := none,
        overpayment := some ((JSNum.fin 200).sub (JSNum.fin 10)),
        requiresConfirmation := true } ∧
    PaymentService.validatePaymentAmount (JSNum.fin 10) (JSNum.fin 200) =
      { valid := false, type := "overpayment_warning",
        requiresConfirmation := true, overpayment := none } :=
  have h := c2_overpayment_warning (JSNum.fin 10) (JSNum.fin 200)
    (by norm_num [JSNum.sub, JSNum.gt, JSNum.lt])
  ⟨h.1, h.2 rfl⟩

/-- C3 (amended): terminal states are not absorbing — every status-update
operation overwrites the stored status unconditionally, whatever the current
status is: a webhook event sets the mapped provider status, `verifyPayment`
sets `completed`, `updatePaymentStatus` sets its argument, and the second
handler's `handlePaymentPending` sets a found order back to `pending`.  Only
the explicit refund action is as described, but nothing protects `Completed`,
`Failed`, `Expired` or `Refunded` from later transitions. -/
theorem c3_terminal_states_not_absorbing :
    (∀ (db : Store) (payload : WebhookPayload) (secret : Option String)
        (eid : String) (p q : Payment),
        findPaymentByOrderId db payload.orderId = some p →
        q ∈ (paychanguWebhookRoute db payload secret eid).2.payments → q.id = p.id →
        q.status = mapPaychanguStatus payload.status) ∧
    (∀ (db : Store) (pid now : String) (p q : Payment), db.err = none →
        findPayment db pid = some p →
        q ∈ (PaymentService.verifyPayment db pid now).2.payments → q.id = p.id →
        q.status = "completed") ∧
    (∀ (db : Store) (pid s msg now : String) (p q : Payment), db.err = none →
        findPayment db pid = some p →
        q ∈ (PaymentService.updatePaymentStatus db pid s msg now).2.payments → q.id = p.id →
        q.status = s) ∧
    (∀ (db : Store) (d : Event2Data) (o : PaymentOrder2),
        findOrder2 db.paymentOrders d.reference = some o →
        findOrder2 (handlePaymentPending db d).paymentOrders d.reference =
          some { o with status := "pending" }) := by
  refine ⟨?_, ?_, ?_, ?_⟩
  · intro db payload secret eid p q hf hq hid
    simp only [paychanguWebhookRoute, verifyPaychanguWebhook_true, Bool.not_true,
      Bool.false_eq_true, if_false, hf] at hq
    by_cases hsb : payload.status = "SUCCESS"
    · rw [if_pos hsb] at hq
      rw [enrollUserInCourse_payments] at hq
      have := setPayment_eq_of_id _ _ _ hq (by simpa using hid)
      subst this
      rfl
    · rw [if_neg hsb] at hq
      have := setPayment_eq_of_id _ _ _ hq (by simpa using hid)
      subst this
      rfl
  · intro db pid now p q herr hf hq hid
    simp only [PaymentService.verifyPayment, herr, hf] at hq
    have := setPayment_eq_of_id _ _ _ hq (by simpa using hid)
    subst this
    rfl
  · intro db pid s msg now p q herr hf hq hid
    simp only [PaymentService.updatePaymentStatus, herr, hf] at hq
    have := setPayment_eq_of_id _ _ _ hq (by simpa using hid)
    subst this
    rfl
  · intro db d o hf
    simp only [handlePaymentPending, hf]
    exact findOrder2_updateFirst _ _ _ _ (fun x => rfl) hf

/-- C3 counterexample: a `FAILED` webhook event delivered for an order whose
status is already `completed` moves it to `failed` — a transition out of a
terminal state that is not the refund action. -/
theorem c3_terminal_states_counterexample :
    (findPayment (paychanguWebhookRoute (storeWithPayment "completed")
      (samplePayload "FAILED") none "E1").2 "P1").map Payment.status = some "failed" ∧
    "failed" ≠ "completed" := ⟨rfl, by decide⟩

/-- C3 witness: the webhook overwrite conjunct applied to a `completed`
sample order receiving a `FAILED` event. -/
theorem c3_terminal_states_witness :
    ({ samplePayment "completed" with status := "failed" } : Payment).status =
      mapPaychanguStatus "FAILED" :=
  c3_terminal_states_not_absorbing.1 (storeWithPayment "completed")
    (samplePayload "FAILED") none "E1" (samplePayment "completed") _ rfl
    (List.Mem.head _) rfl

/-- C4 (amended): for `paidAmount < requiredAmount − tolerance` the
processor's validator always returns `Underpayment` with `valid = false` and
the exact shortfall `requiredAmount − paidAmount`; the service's validator
does so only for a positive (non-NaN) `paidAmount` — a non-positive one is
rejected as `invalid_amount` instead, because the invalid-amount check runs
first. -/
theorem c4_underpayment (required paid : JSNum)
    (h : paid.lt (required.sub (.fin MIN_AMOUNT_TOLERANCE)) = true) :
    PaymentProcessor.validateAmount paid required =
      { valid := false, type := "underpayment",
        shortfall := some (required.sub paid),
        overpayment := none, requiresConfirmation := false } ∧
    (paid.isNaN = false → paid.le (.fin 0) = false →
      PaymentService.validatePaymentAmount required paid =
        { valid := false, type := "underpayment",
          requiresConfirmation := false, overpayment := none }) := by
  cases paid <;> cases required <;>
    try (simp_all [JSNum.sub, JSNum.gt, JSNum.lt, JSNum.le, JSNum.abs, JSNum.isNaN,
      PaymentProcessor.validateAmount, PaymentService.validatePaymentAmount,
      MIN_AMOUNT_TOLERANCE, ProcessorValidation.mk.injEq, ValidationResult.mk.injEq]; done)
  rename_i a b
  have hb : a < b - 1e-2 := by
    simpa [JSNum.sub, JSNum.lt, MIN_AMOUNT_TOLERANCE] using h
  have h1 : (1e-2 : ℚ) < |a - b| := by
    rw [abs_sub_comm, abs_of_pos (by linarith)]; linarith
  have h2 : a < b := by linarith
  have h3 : (1e-2 : ℚ) < b - a := by linarith
  refine ⟨?_, ?_⟩
  · simp [PaymentProcessor.validateAmount, JSNum.sub, JSNum.abs, JSNum.gt, JSNum.lt, h1, h2]
  · intro _ hle
    have ha : ¬ (a ≤ 0) := by simpa [JSNum.le] using hle
    simp [PaymentService.validatePaymentAmount, JSNum.sub, JSNum.gt, JSNum.lt, JSNum.le,
      JSNum.isNaN, MIN_AMOUNT_TOLERANCE, ha, h3]

/-- C4 counterexample: `requiredAmount = 100`, `paidAmount = −5` is below the
tolerance band, yet the service's validator reports `invalid_amount`, not
`underpayment` as the claim requires for all such inputs. -/
theorem c4_underpayment_counterexample :
    (JSNum.fin (-5)).lt ((JSNum.fin 100).sub (JSNum.fin MIN_AMOUNT_TOLERANCE)) = true ∧
    (PaymentService.validatePaymentAmount (JSNum.fin 100) (JSNum.fin (-5))).type
      = "invalid_amount" ∧
    (PaymentService.validatePaymentAmount (JSNum.fin 100) (JSNum.fin (-5))).type
      ≠ "underpayment" := by
  refine ⟨?_, rfl, by decide⟩
  norm_num [JSNum.sub, JSNum.lt, MIN_AMOUNT_TOLERANCE]

/-- C4 witness: the amended statement at `requiredAmount = 100`,
`paidAmount = 50`. -/
theorem c4_underpayment_witness :
    PaymentProcessor.validateAmount (JSNum.fin 50) (JSNum.fin 100) =
      { valid := false, type := "underpayment",
        shortfall := some ((JSNum.fin 100).sub (JSNum.fin 50)),
        overpayment := none, requiresConfirmation := false } ∧
    PaymentService.validatePaymentAmount (JSNum.fin 100) (JSNum.fin 50) =
      { valid := false, type := "underpayment",
        requiresConfirmation := false, overpayment := none } :=
  have h := c4_underpayment (JSNum.fin 100) (JSNum.fin 50)
    (by norm_num [JSNum.sub, JSNum.lt, MIN_AMOUNT_TOLERANCE])
  ⟨h.1, h.2 rfl rfl⟩

/-- C5 (amended): the service's validator returns `invalid_amount` (with
`valid = false`) exactly when `paidAmount` is NaN or ≤ 0; a positive
infinite `paidAmount` is NOT rejected as invalid (it falls through to the
later branches), and the processor's validator never returns an
invalid-amount rejection for any input; it never returns `invalid_amount`
for a positive finite `paidAmount`, as the claim says. -/
theorem c5_invalid_amount (required paid : JSNum) :
    ((PaymentService.validatePaymentAmount required paid).type = "invalid_amount" ↔
      (paid.isNaN = true ∨ paid.le (.fin 0) = true)) ∧
    ((paid.isNaN = true ∨ paid.le (.fin 0) = true) →
      PaymentService.validatePaymentAmount required paid =
        { valid := false, type := "invalid_amount", requiresConfirmation := false,
          overpayment := none }) ∧
    (PaymentProcessor.validateAmount paid required).type ≠ "invalid_amount" := by
  by_cases hc : (paid.isNaN || paid.le (.fin 0)) = true
  · refine ⟨?_, ?_, ?_⟩
    · simp [PaymentService.validatePaymentAmount, hc]
      simpa using hc
    · intro _
      simp [PaymentService.validatePaymentAmount, hc]
    · simp only [PaymentProcessor.validateAmount]
      split
      · simp
      · split <;> simp
  · have hc' : (paid.isNaN || paid.le (.fin 0)) = false := by
      simpa using hc
    have hor : ¬ (paid.isNaN = true ∨ paid.le (.fin 0) = true) := by
      simpa using hc
    refine ⟨?_, ?_, ?_⟩
    · simp [PaymentService.validatePaymentAmount, hc']
      constructor
      · split
        · simp
        · split <;> simp
      · intro h
        exact absurd h hor
    · intro h
      exact absurd h hor
    · simp only [PaymentProcessor.validateAmount]
      split
      · simp
      · split <;> simp

/-- C5 counterexample: `paidAmount = +Infinity` is not a positive finite
number, yet the service's validator does not reject it as `InvalidAmount` —
it reaches the overpayment branch instead. -/
theorem c5_invalid_amount_counterexample :
    JSNum.posInf.isNaN = false ∧ JSNum.posInf.le (JSNum.fin 0) = false ∧
    (PaymentService.validatePaymentAmount (JSNum.fin 50) JSNum.posInf).type
      = "overpayment_warning" ∧
    (PaymentService.validatePaymentAmount (JSNum.fin 50) JSNum.posInf).type
      ≠ "invalid_amount" := ⟨rfl, rfl, rfl, by decide⟩

/-- C5 witness: the amended statement at `requiredAmount = 50`,
`paidAmount = NaN`. -/
theorem c5_invalid_amount_witness :
    (PaymentService.validatePaymentAmount (JSNum.fin 50) JSNum.nan).type
      = "invalid_amount" ∧
    PaymentService.validatePaymentAmount (JSNum.fin 50) JSNum.nan =
      { valid := false, type := "invalid_amount", requiresConfirmation := false,
        overpayment := none } :=
  have h := c5_invalid_amount (JSNum.fin 50) JSNum.nan
  ⟨h.1.mpr (Or.inl rfl), h.2.1 (Or.inl rfl)⟩

/-- C6 (confirmed): every payment document created by
`PaymentService.createPaymentOrder` stores
`net = requested − platformFee − processingFee`, with the fees recomputed by
`calculateFees` from the course's catalog price and the method — the net
amount is computed server-side, never taken from client input. -/
theorem c6_net_amount (db : Store) (userId courseId method : String) (amount : ℚ)
    (orderId paymentId now : String) (nowT : ℚ) (p : Payment)
    (hp : (PaymentService.createPaymentOrder db userId courseId method amount
            orderId paymentId now nowT).1.data = some p) :
    p.amount.net = p.amount.requested - p.fees.platform - p.fees.processing ∧
    ∃ course, findCourse db courseId = some course ∧
      p.fees = PaymentService.calculateFees amount method course.priceUSD ∧
      p.amount.requested = amount := by
  cases hdb : db.err with
  | some m => simp [PaymentService.createPaymentOrder, hdb] at hp
  | none =>
    cases hcourse : findCourse db courseId with
    | none => simp [PaymentService.createPaymentOrder, hdb, hcourse] at hp
    | some course =>
      simp only [PaymentService.createPaymentOrder, hdb, hcourse,
        Option.some.injEq] at hp
      subst hp
      refine ⟨?_, course, rfl, rfl, rfl⟩
      simp only
      rw [calculateFees_total_eq]
      ring

/-- C6 witness: the sample created order for the $50 course satisfies the net
amount equation with fees recomputed from the catalog price. -/
theorem c6_net_amount_witness :
    createdSample.amount.net =
      createdSample.amount.requested - createdSample.fees.platform -
        createdSample.fees.processing ∧
    ∃ course, findCourse storeWithCourse "c1" = some course ∧
      createdSample.fees = PaymentService.calculateFees 55 "paychangu" course.priceUSD ∧
      createdSample.amount.requested = 55 :=
  c6_net_amount storeWithCourse "u1" "c1" "paychangu" 55 "O1" "P1" "t1" 0
    createdSample rfl

/-- C7 (confirmed): for a $50 course paid by mobile money (`paychangu`),
`calculateTotal` gives platformFee $5.00, processingFee $1.50 and
totalAmount $56.50; `calculateFees` gives the same fees so the created
order's net is $43.50; validating against the $56.50 total, a payment of
$56.50 is `Valid`, $50.00 is `Underpayment` with shortfall $6.50, and $200
is accepted (`valid = true`) with `OverpaymentWarning` and overpayment
$143.50. -/
theorem c7_example_scenario :
    PaymentProcessor.calculateTotal 50 "paychangu" =
      { amount := 50, platformFee := 5, paymentFee := 1.5, total := 56.5 } ∧
    PaymentService.calculateFees 50 "paychangu" 50 =
      { platform := 5, processing := 1.5, total := 6.5 } ∧
    ((PaymentService.createPaymentOrder storeWithCourse "u1" "c1" "paychangu" 50
        "O1" "P1" "t1" 0).1.data.map (fun p => p.amount.net)) = some 43.5 ∧
    PaymentProcessor.validateAmount (.fin 56.5) (.fin 56.5) =
      { valid := true, type := "valid", shortfall := none,
        overpayment := some (.fin 0), requiresConfirmation := false } ∧
    PaymentProcessor.validateAmount (.fin 50) (.fin 56.5) =
      { valid := false, type := "underpayment", shortfall := some (.fin 6.5),
        overpayment := none, requiresConfirmation := false } ∧
    PaymentProcessor.validateAmount (.fin 200) (.fin 56.5) =
      { valid := true, type := "overpayment_warning", shortfall := none,
        overpayment := some (.fin 143.5), requiresConfirmation := true } := by
  refine ⟨?_, ?_, ?_, ?_, ?_, ?_⟩ <;>
    norm_num +decide [PaymentProcessor.calculateTotal, PaymentService.calculateFees,
      PaymentService.createPaymentOrder, storeWithCourse, emptyStore, sampleCourse,
      findCourse, PLATFORM_FEE_RATE, PaymentProcessor.validateAmount,
      JSNum.sub, JSNum.abs, JSNum.gt, JSNum.lt, JSNum.le, JSNum.isNaN,
      abs_of_neg, abs_of_pos, TotalBreakdown.mk.injEq, Fees.mk.injEq,
      ProcessorValidation.mk.injEq]

/-- C8 (amended): of the two PayChangu webhook handlers, only the second
(`/paychangu`) acknowledges a signature-passing event whose order reference
matches no stored order with HTTP 200 and leaves the store untouched; the
first (`/paychangu-webhook`, whose stubbed signature check always passes)
responds 404 `Payment not found` on an unknown order reference, so the
provider would keep redelivering to it. -/
theorem c8_unknown_order_ack :
    (∀ (db : Store) (payload : WebhookPayload) (secret : Option String) (eid : String),
        findPaymentByOrderId db payload.orderId = none →
        paychanguWebhookRoute db payload secret eid = (404, db)) ∧
    (∀ (db : Store) (event : Event2),
        event.type = "payment.success" →
        findOrder2 db.paymentOrders event.data.reference = none →
        paychanguRoute db event true = (200, db)) := by
  constructor
  · intro db payload secret eid hf
    simp [paychanguWebhookRoute, verifyPaychanguWebhook_true, hf]
  · intro db event ht hf
    simp [paychanguRoute, ht, handlePaymentSuccess, hf]

/-- C8 counterexample: a `SUCCESS` event for an unknown order delivered to
`/paychangu-webhook` is answered with HTTP 404, not 200. -/
theorem c8_unknown_order_counterexample :
    (paychanguWebhookRoute emptyStore (samplePayload "SUCCESS") none "E1").1 = 404 ∧
    (404 : Nat) ≠ 200 := ⟨rfl, by decide⟩

/-- C8 witness: the 404 of the first handler and the 200 of the second on
concrete unknown-order events. -/
theorem c8_unknown_order_witness :
    paychanguWebhookRoute emptyStore (samplePayload "SUCCESS") none "E1"
      = (404, emptyStore) ∧
    paychanguRoute emptyStore sampleEvent2 true = (200, emptyStore) :=
  ⟨c8_unknown_order_ack.1 emptyStore (samplePayload "SUCCESS") none "E1" rfl,
   c8_unknown_order_ack.2 emptyStore sampleEvent2 rfl rfl⟩

/-- C9 (amended): no duplicate suppression exists.  `createPaymentOrder`
never consults the duplicate check and appends a new order whenever the
course exists, regardless of existing active orders, so a second create
request produces a sibling order instead of an `AlreadyExists` response.
Moreover `checkDuplicatePayment` itself is inert: its window filter
compares the Timestamp-typed `createdAt` against an ISO-string cutoff, a
cross-type range filter that no Timestamp satisfies, so on every store
whose payments carry the Timestamp `createdAt` the create paths write it
reports `hasDuplicates = false`. -/
theorem c9_duplicate_suppression :
    (∀ (db : Store) (u c m : String) (amt : ℚ) (oid pid now : String) (nowT : ℚ)
        (course : Course),
        db.err = none → findCourse db c = some course →
        ((PaymentService.createPaymentOrder db u c m amt oid pid now nowT).2).payments.length
          = db.payments.length + 1) ∧
    (∀ (db : Store) (u c : String) (w : ℚ) (cutoffIso : String),
        (∀ q ∈ db.payments, ∃ t, q.createdAt = FieldVal.timestamp t) →
        (PaymentService.checkDuplicatePayment db u c w cutoffIso).hasDuplicates = false ∧
        (PaymentService.checkDuplicatePayment db u c w cutoffIso).count = 0) := by
  constructor
  · intro db u c m amt oid pid now nowT course herr hc
    simp [PaymentService.createPaymentOrder, herr, hc]
  · intro db u c w cutoffIso hts
    cases hdb : db.err with
    | some m => simp [PaymentService.checkDuplicatePayment, hdb]
    | none =>
      have hfil : db.payments.filter (fun p =>
          p.userId = u && p.courseId = c &&
          FieldVal.ge p.createdAt (FieldVal.str cutoffIso) &&
          (p.status = "pending" || p.status = "processing" ||
            p.status = "completed")) = [] := by
        rw [List.filter_eq_nil_iff]
        intro q hq
        obtain ⟨t, ht⟩ := hts q hq
        simp [ht, FieldVal.ge]
      simp [PaymentService.checkDuplicatePayment, hdb, hfil]

/-- C9 counterexample: a second create request for the same `(u1, c1)` one
hour after the first succeeds and creates a second order — two active orders
exist, with no `AlreadyExists` signal. -/
theorem c9_duplicate_suppression_counterexample :
    dupResult2.1.success = true ∧
    dupResult2.1.paymentId = some "PP2" ∧
    countPaymentsFor dupResult2.2 "u1" "c1" = 2 := ⟨rfl, rfl, rfl⟩

/-- C9 witness: the amended statement at the sample store — the create call
appends unconditionally, and the duplicate check, run on the store that does
hold an active order for `(u1, c1)`, still reports no duplicates because of
the Timestamp-vs-string filter. -/
theorem c9_duplicate_suppression_witness :
    ((PaymentService.createPaymentOrder storeWithCourse "u1" "c1" "paychangu" 55
        "O1" "PP1" "t1" 0).2).payments.length = storeWithCourse.payments.length + 1 ∧
    (PaymentService.checkDuplicatePayment dupDb1 "u1" "c1" 24
      "1970-01-01T01:00:00.000Z").hasDuplicates = false :=
  ⟨c9_duplicate_suppression.1 storeWithCourse "u1" "c1" "paychangu" 55 "O1" "PP1"
      "t1" 0 sampleCourse rfl rfl,
   (c9_duplicate_suppression.2 dupDb1 "u1" "c1" 24 "1970-01-01T01:00:00.000Z"
      (by
        intro q hq
        have hq1 : q = dupPayment := List.mem_singleton.mp hq
        subst hq1
        exact ⟨0, rfl⟩)).1⟩

/-- C10 (confirmed): each of the six store-touching PaymentService
operations is a total function of the store and its inputs (it cannot throw)
and always returns a result object that is either a success with no error or
a failure carrying an error message — for every input and also when the
store itself fails. -/
theorem c10_no_throw (db : Store) (userId courseId method : String) (amount : ℚ)
    (orderId paymentId now status message reason : String) (nowT w : ℚ) :
    resultOk (PaymentService.createPaymentOrder db userId courseId method amount
        orderId paymentId now nowT).1.success
      (PaymentService.createPaymentOrder db userId courseId method amount
        orderId paymentId now nowT).1.error ∧
    resultOk (PaymentService.verifyPayment db paymentId now).1.success
      (PaymentService.verifyPayment db paymentId now).1.error ∧
    resultOk (PaymentService.getPaymentDetails db paymentId).success
      (PaymentService.getPaymentDetails db paymentId).error ∧
    resultOk (PaymentService.updatePaymentStatus db paymentId status message now).1.success
      (PaymentService.updatePaymentStatus db paymentId status message now).1.error ∧
    resultOk (PaymentService.checkDuplicatePayment db userId courseId w now).success
      (PaymentService.checkDuplicatePayment db userId courseId w now).error ∧
    resultOk (PaymentService.refundPayment db paymentId reason now).1.success
      (PaymentService.refundPayment db paymentId reason now).1.error := by
  refine ⟨?_, ?_, ?_, ?_, ?_, ?_⟩ <;>
    cases hdb : db.err <;>
    simp [resultOk, PaymentService.createPaymentOrder, PaymentService.verifyPayment,
      PaymentService.getPaymentDetails, PaymentService.updatePaymentStatus,
      PaymentService.checkDuplicatePayment, PaymentService.refundPayment, hdb] <;>
    first
      | (cases hc : findCourse db courseId <;> simp [hc])
      | (cases hp : findPayment db paymentId <;> simp [hp])

end MrtcECampus
